import Mathlib

/-!
Shallow embedding of the client script of the `roadtest` site
("How's The Roads"): a traffic-camera feed loader with "load more"
pagination, and a weather label resolver that maps a NOAA forecast to a
temperature-plus-emoji string.

Two script versions exist in the repository; the camera-feed loader
(`loadVideos` and its callers) is byte-identical in both.  The weather
label resolver and `determineWeatherEmoji(shortForecast, isNight)`
embedded here are taken from the forecast-text version of the script
(the two-step `points` → `forecastHourly` chain).

Modelling conventions:
* JSON values delivered by the network are the inductive `Json` below;
  a fetch/parse failure is `Option.none` at the response position.
* JavaScript property access, truthiness, indexing and template-literal
  stringification are modelled by `getProp`, `Json.truthy`,
  `jsIndexZero` and `jsToString`; a thrown `TypeError` is
  `Except.error`, and every promise-chain `.catch` turns an error into
  its fallback DOM write.
* Array indices and batch sizes are naturals: every call site of the
  loader passes non-negative integers, and `Array.prototype.slice` on
  such arguments is `take`/`drop`.
* `jsToLowerCase` stands for `String.prototype.toLowerCase` (the
  classifier's patterns and inputs are ASCII).
* Emoji string literals are the ones in the source.  The night-clear
  literal of the forecast-text script is the two-character sequence
  U+FFFD U+FFFD (the Unicode replacement character twice): the file
  genuinely contains that corrupted literal where the sibling script
  version has the moon emoji.
-/

namespace Roadtest

/-- A JSON value as delivered by a network response.  Numbers are
modelled as integers (every numeric field consumed by the script —
temperatures of the hourly forecast — is a whole number). -/
inductive Json where
  | null : Json
  | bool (b : Bool) : Json
  | num (n : Int) : Json
  | str (s : String) : Json
  | arr (elems : List Json) : Json
  | obj (fields : List (String × Json)) : Json

/-- Field lookup in a parsed JSON object (fields of a parsed object are
unique, so first match suffices). -/
def lookupField : List (String × Json) → String → Option Json
  | [], _ => none
  | (k, v) :: rest, key => if k = key then some v else lookupField rest key

/-- JavaScript truthiness of a JSON value (arrays and objects are
always truthy; `null`, `false`, `0` and `""` are falsy). -/
def Json.truthy : Json → Bool
  | .null => false
  | .bool b => b
  | .num n => n != 0
  | .str s => s != ""
  | .arr _ => true
  | .obj _ => true

/-- `j.key` for an object: the field's value, or `none` (undefined) when
the key is absent or `j` is not an object.  Access on `null` itself is
handled by `getProp` below. -/
def Json.getField : Json → String → Option Json
  | .obj fields, key => lookupField fields key
  | _, _ => none

/-- JavaScript property access `v.key` where `v : Option Json` and
`none` stands for `undefined`: throws (`Except.error`) on `undefined`
and `null`, yields the field or `undefined` otherwise. -/
def getProp (v : Option Json) (key : String) : Except String (Option Json) :=
  match v with
  | none => .error "TypeError: cannot read properties of undefined"
  | some .null => .error "TypeError: cannot read properties of null"
  | some (.obj fields) => .ok (lookupField fields key)
  | some j => .ok (j.getField key)

/-- JavaScript index access `v[0]`: throws on `undefined`/`null`,
indexes arrays (and strings, by character), yields `undefined` on other
primitives. -/
def jsIndexZero (v : Option Json) : Except String (Option Json) :=
  match v with
  | none => .error "TypeError: cannot read properties of undefined"
  | some .null => .error "TypeError: cannot read properties of null"
  | some (.arr xs) => .ok xs.head?
  | some (.str s) =>
      .ok (match s.toList with
           | [] => none
           | c :: _ => some (.str (String.mk [c])))
  | some _ => .ok none

/-- Truthiness of a possibly-undefined value (`undefined` is falsy). -/
def jsTruthyOpt : Option Json → Bool
  | none => false
  | some j => j.truthy

/-- Whether a JSON value is `null` (`Array.prototype.join` stringifies
`null` elements as the empty string). -/
def Json.isNullValue : Json → Bool
  | .null => true
  | _ => false

mutual

/-- JavaScript `ToString` as used by a template literal `${v}`.  Arrays
join their elements with `","`, stringifying `null` elements as `""`
(the `Array.prototype.join` rule); objects print `"[object Object]"`. -/
def jsToString : Json → String
  | .null => "null"
  | .bool b => if b then "true" else "false"
  | .num n => toString n
  | .str s => s
  | .obj _ => "[object Object]"
  | .arr xs => String.intercalate "," (jsJoinParts xs)

/-- The element strings of `Array.prototype.join`. -/
def jsJoinParts : List Json → List String
  | [] => []
  | j :: rest => (if j.isNullValue then "" else jsToString j) :: jsJoinParts rest

end

/-- `${v}` for a possibly-undefined value. -/
def jsTemplate : Option Json → String
  | none => "undefined"
  | some j => jsToString j

/-! ### The emoji classifier (`determineWeatherEmoji`) -/

/-- `String.prototype.includes` on lists of characters: `pat` occurs
contiguously in the list. -/
def jsIncludesAux (pat : List Char) : List Char → Bool
  | [] => pat.isEmpty
  | c :: rest => pat.isPrefixOf (c :: rest) || jsIncludesAux pat rest

/-- `s.includes(pat)` — substring containment. -/
def jsIncludes (s pat : String) : Bool :=
  jsIncludesAux pat.data s.data

/-- `String.prototype.toLowerCase` (ASCII case folding, which covers
every pattern and forecast text the classifier sees). -/
def jsToLowerCase (s : String) : String :=
  String.mk (s.data.map Char.toLower)

/-- Thunderstorm emoji returned by the `thunder` branch. -/
def thunderstormEmoji : String := "⛈️"

/-- Rain emoji returned by the `rain`/`shower` branch. -/
def rainEmoji : String := "🌧️"

/-- Snow emoji returned by the `snow` branch. -/
def snowEmoji : String := "❄️"

/-- Fog emoji returned by the `fog`/`mist` branch. -/
def fogEmoji : String := "🌫️"

/-- Night `partly` cloud branch: the moon emoji (source comment: "Moon
with some clouds"). -/
def partlyCloudyNightEmoji : String := "🌙"

/-- Night `mostly`/plain cloud branches: the plain cloud emoji. -/
def cloudyNightEmoji : String := "☁️"

/-- Day `partly` cloud branch: sun behind cloud. -/
def partlyCloudyDayEmoji : String := "⛅"

/-- Day `mostly` cloud branch: sun behind large cloud. -/
def mostlyCloudyDayEmoji : String := "🌥️"

/-- Day plain cloud branch: the plain cloud emoji. -/
def cloudyDayEmoji : String := "☁️"

/-- The literal returned for clear night skies.  In the source this is
the two-character sequence U+FFFD U+FFFD — the Unicode replacement
character twice, a corrupted remnant where the sibling script version
has the moon emoji `🌙`. -/
def clearNightLiteral : String := "��"

/-- Clear day: the sun emoji. -/
def clearDayEmoji : String := "☀️"

/-- `determineWeatherEmoji(shortForecast, isNight)` of the
forecast-text script: ordered first-match substring tests against the
lower-cased forecast text. -/
def determineWeatherEmoji (shortForecast : String) (isNight : Bool) : String :=
  let forecast := jsToLowerCase shortForecast
  if jsIncludes forecast "thunder" then
    thunderstormEmoji
  else if jsIncludes forecast "rain" || jsIncludes forecast "shower" then
    rainEmoji
  else if jsIncludes forecast "snow" then
    snowEmoji
  else if jsIncludes forecast "fog" || jsIncludes forecast "mist" then
    fogEmoji
  else if jsIncludes forecast "cloud" || jsIncludes forecast "overcast" then
    if isNight then
      if jsIncludes forecast "partly" then partlyCloudyNightEmoji
      else if jsIncludes forecast "mostly" then cloudyNightEmoji
      else cloudyNightEmoji
    else
      if jsIncludes forecast "partly" then partlyCloudyDayEmoji
      else if jsIncludes forecast "mostly" then mostlyCloudyDayEmoji
      else cloudyDayEmoji
  else
    if isNight then clearNightLiteral else clearDayEmoji

/-! ### The camera feed parser and paginated loader -/

/-- `const videos = data.videos || data;` followed by
`if (!videos || !Array.isArray(videos)) throw new Error(...)`:
the bare-list / wrapped-list extraction of the feed handler.  `data`
is the parsed JSON response; accessing `.videos` on `null` throws a
`TypeError`, which the promise chain's `.catch` receives just like the
explicit `throw`. -/
def extractVideos (data : Json) : Except String (List Json) :=
  match data with
  | .null => .error "TypeError: cannot read properties of null"
  | _ =>
    let videos : Json :=
      match data.getField "videos" with
      | some v => if v.truthy then v else data
      | none => data
    match videos with
    | .arr xs => .ok xs
    | _ => .error "Invalid video data format"

/-- Whether the response has one of the two accepted shapes: a bare
list, or an object whose `videos` field is a list. -/
def isListShaped : Json → Bool
  | .arr _ => true
  | .obj fields =>
      match lookupField fields "videos" with
      | some (.arr _) => true
      | _ => false
  | _ => false

/-- A camera record of the feed (`name`, stream `url`, and coordinates;
the coordinates are used only inside interpolated strings and are kept
as their decimal renderings). -/
structure CameraRecord where
  name : String
  url : String
  latitude : String
  longitude : String

/-- The Google Maps link built for a camera. -/
def mapsUrl (video : CameraRecord) : String :=
  "https://www.google.com/maps?q=" ++ video.latitude ++ "," ++ video.longitude

/-- The markup appended to the video container for one camera
(whitespace of the multi-line template normalised away). -/
def renderVideoItem (video : CameraRecord) : String :=
  "<h2><a href=\"" ++ mapsUrl video ++
    "\" target=\"_blank\" title=\"View on map\"><i class=\"fa-solid fa-location-dot\"></i> " ++
    video.name ++
    "</a></h2><video controls crossorigin playsinline autoplay muted><source src=\"" ++
    video.url ++ "\" type=\"application/x-mpegURL\"></video>"

/-- `videosPerLoad = 9`. -/
def videosPerLoad : Nat := 9

/-- The mutable session state touched by `loadVideos`: the
`videosLoaded` cursor, the children appended to the video container,
and the `display` style of the load-more container. -/
structure LoaderState where
  videosLoaded : Nat
  rendered : List String
  loadMoreDisplay : String

/-- `loadVideos(start, count)`: renders `allVideos.slice(start, start +
count)`, advances the cursor by the number of items actually rendered,
and toggles the load-more control. -/
def loadVideos (allVideos : List CameraRecord) (st : LoaderState)
    (start count : Nat) : LoaderState :=
  let videosToLoad := (allVideos.drop start).take count
  let newLoaded := st.videosLoaded + videosToLoad.length
  { videosLoaded := newLoaded
    rendered := st.rendered ++ videosToLoad.map renderVideoItem
    loadMoreDisplay := if allVideos.length ≤ newLoaded then "none" else "flex" }

/-- State right after the feed resolves: cursor at `0`, nothing
rendered, load-more display still whatever the stylesheet set. -/
def initialLoaderState (css : String) : LoaderState :=
  { videosLoaded := 0, rendered := [], loadMoreDisplay := css }

/-- One load action at the running cursor — the initial
`loadVideos(0, videosPerLoad)` call and every load-more click both have
this form. -/
def loadMoreClick (allVideos : List CameraRecord) (count : Nat)
    (st : LoaderState) : LoaderState :=
  loadVideos allVideos st st.videosLoaded count

/-- The states reachable by `n` successive load actions at the running
cursor, starting from the empty session. -/
def loaderRun (allVideos : List CameraRecord) (count : Nat) (css : String) :
    Nat → LoaderState
  | 0 => initialLoaderState css
  | n + 1 => loadMoreClick allVideos count (loaderRun allVideos count css n)

/-- Observable outcome of the feed fetch handler: the stored video
list (absent on error), how many items the initial
`loadVideos(0, videosPerLoad)` call rendered, and the text of the
loading-indicator node. -/
structure FeedOutcome where
  allVideos : Option (List Json)
  renderedCount : Nat
  loadingText : String

/-- The feed `.then`/`.catch` pair: on a well-shaped response, store
the list and render the first batch; otherwise render nothing and
replace the loading indicator's text with the error message. -/
def handleFeedData (initText : String) (data : Json) : FeedOutcome :=
  match extractVideos data with
  | .ok vs =>
      { allVideos := some vs
        renderedCount := ((vs.drop 0).take videosPerLoad).length
        loadingText := initText }
  | .error _ =>
      { allVideos := none
        renderedCount := 0
        loadingText := "Error loading videos." }

/-! ### The weather label resolver -/

/-- The fallback written into the temperature node by the weather
chain's `.catch`. -/
def fallbackTemperatureText : String := "Unable to load temperature"

/-- The success continuation of the weather chain, from the resolved
points response onward: read `pointsData.properties.forecastHourly`,
fetch that URL (the response is the `forecastResp` argument; `none` is
a failed fetch/parse), then read
`forecastData.properties.periods[0]`, its `temperature`, `isDaytime`
and `shortForecast`, and build the label.  Every `TypeError` a missing
field would raise in the original propagates as `Except.error`. -/
def weatherChain (pointsData : Json) (forecastResp : Option Json) :
    Except String String :=
  match getProp (some pointsData) "properties" with
  | .error e => .error e
  | .ok props =>
    match getProp props "forecastHourly" with
    | .error e => .error e
    | .ok _forecastHourlyUrl =>
      match forecastResp with
      | none => .error "fetch or response.json() rejected"
      | some forecastData =>
        match getProp (some forecastData) "properties" with
        | .error e => .error e
        | .ok fprops =>
          match getProp fprops "periods" with
          | .error e => .error e
          | .ok periods =>
            match jsIndexZero periods with
            | .error e => .error e
            | .ok currentPeriod =>
              match getProp currentPeriod "temperature" with
              | .error e => .error e
              | .ok tempF =>
                match getProp currentPeriod "isDaytime" with
                | .error e => .error e
                | .ok isDaytime =>
                  match getProp currentPeriod "shortForecast" with
                  | .error e => .error e
                  | .ok shortForecast =>
                    match shortForecast with
                    | some (.str sf) =>
                        .ok (determineWeatherEmoji sf (! jsTruthyOpt isDaytime)
                              ++ " " ++ jsTemplate tempF ++ "°f in kc")
                    | _ => .error "TypeError: toLowerCase is not a function"

/-- The whole weather feature for one page load: one points response,
one forecast response (each `none` when its network step fails), and
the text that ends up in the temperature node.  The `.catch` handler
maps every error to the fallback string. -/
def resolveWeather (pointsResp forecastResp : Option Json) : String :=
  match pointsResp with
  | none => fallbackTemperatureText
  | some pointsData =>
    match weatherChain pointsData forecastResp with
    | .ok label => label
    | .error _ => fallbackTemperatureText

/-- `j.key` is missing in the sense of the spec: the access throws or
yields `undefined`. -/
def propertyMissing (j : Json) (key : String) : Bool :=
  match getProp (some j) key with
  | .ok (some _) => false
  | _ => true

/-- `forecastData.properties.periods[0]` is missing: some step of that
path throws or the result is `undefined`. -/
def firstPeriodMissing (forecastData : Json) : Bool :=
  match getProp (some forecastData) "properties" with
  | .error _ => true
  | .ok fprops =>
    match getProp fprops "periods" with
    | .error _ => true
    | .ok periods =>
      match jsIndexZero periods with
      | .error _ => true
      | .ok none => true
      | .ok (some _) => false

/-- The complete set of strings `determineWeatherEmoji` can return:
one per branch (the two plain-cloud branches share a literal, and the
night-clear entry is the corrupted replacement-character pair). -/
def weatherEmojiOutputs : List String :=
  [thunderstormEmoji, rainEmoji, snowEmoji, fogEmoji,
   partlyCloudyNightEmoji, cloudyNightEmoji,
   partlyCloudyDayEmoji, mostlyCloudyDayEmoji, cloudyDayEmoji,
   clearNightLiteral, clearDayEmoji]

/-! ## Claims about the emoji classifier -/

/-- C1: the classifier follows the ordered first-match substring
algorithm, but its final clear-sky night branch does NOT return the
moon emoji: the source literal is the two-character sequence
U+FFFD U+FFFD (the Unicode replacement character twice), a corrupted
remnant of the moon emoji that the sibling script version still has.
Evaluating the code at the failing input `("Clear", isNight = true)`
exhibits the divergence. -/
theorem clearNight_corrupted_eval :
    determineWeatherEmoji "Clear" true = clearNightLiteral
    ∧ clearNightLiteral = "��"
    ∧ clearNightLiteral ≠ "🌙"
    ∧ determineWeatherEmoji "Clear" false = clearDayEmoji := by
  refine ⟨rfl, rfl, ?_, rfl⟩
  decide

/-- C7: `"Partly Cloudy"` by day maps to the partly-cloudy-day emoji
`⛅`, and at night to the classifier's night variant of the
partly-cloudy case, the moon emoji `🌙`; the two variants are
distinct strings. -/
theorem partlyCloudy_day_night_variant :
    determineWeatherEmoji "Partly Cloudy" false = partlyCloudyDayEmoji
    ∧ determineWeatherEmoji "Partly Cloudy" true = partlyCloudyNightEmoji
    ∧ partlyCloudyNightEmoji ≠ partlyCloudyDayEmoji := by
  refine ⟨rfl, rfl, ?_⟩
  decide

/-- C8 counterexample: at night the three cloud-density variants do
NOT all collapse to one symbol — `"Partly Cloudy"` and
`"Mostly Cloudy"` (both contain `"cloud"` and none of the
higher-priority substrings) produce different outputs at night. -/
theorem night_cloud_variants_not_all_equal :
    determineWeatherEmoji "Partly Cloudy" true
      ≠ determineWeatherEmoji "Mostly Cloudy" true := by
  decide

/-- C8 amended: at night, among forecasts that reach the cloud branch,
the `mostly` variant and the plain variant collapse to the same
cloudy-night symbol `☁️`, while the `partly` variant maps to the moon
emoji `🌙`, which differs. -/
theorem night_cloud_collapse (s : String)
    (hc : (jsIncludes (jsToLowerCase s) "cloud"
            || jsIncludes (jsToLowerCase s) "overcast") = true)
    (h1 : jsIncludes (jsToLowerCase s) "thunder" = false)
    (h2 : jsIncludes (jsToLowerCase s) "rain" = false)
    (h3 : jsIncludes (jsToLowerCase s) "shower" = false)
    (h4 : jsIncludes (jsToLowerCase s) "snow" = false)
    (h5 : jsIncludes (jsToLowerCase s) "fog" = false)
    (h6 : jsIncludes (jsToLowerCase s) "mist" = false) :
    (jsIncludes (jsToLowerCase s) "partly" = false →
        determineWeatherEmoji s true = cloudyNightEmoji)
    ∧ (jsIncludes (jsToLowerCase s) "partly" = true →
        determineWeatherEmoji s true = partlyCloudyNightEmoji)
    ∧ partlyCloudyNightEmoji ≠ cloudyNightEmoji := by
  refine ⟨?_, ?_, by decide⟩ <;> intro hp
  · simp [determineWeatherEmoji, hc, h1, h2, h3, h4, h5, h6, hp]
  · simp [determineWeatherEmoji, hc, h1, h2, h3, h4, h5, h6, hp]

/-- Witness for C8's amended statement at the concrete night forecasts
`"Mostly Cloudy"` and `"Partly Cloudy"`. -/
theorem night_cloud_collapse_witness :
    determineWeatherEmoji "Mostly Cloudy" true = cloudyNightEmoji
    ∧ determineWeatherEmoji "Partly Cloudy" true = partlyCloudyNightEmoji :=
  ⟨(night_cloud_collapse "Mostly Cloudy" (by decide) (by decide) (by decide)
      (by decide) (by decide) (by decide) (by decide)).1 (by decide),
   (night_cloud_collapse "Partly Cloudy" (by decide) (by decide) (by decide)
      (by decide) (by decide) (by decide) (by decide)).2.1 (by decide)⟩

/-- C10: the classifier is a total function whose output always lies
in the fixed eleven-entry literal list `weatherEmojiOutputs` (the
final branch is a catch-all, so even the empty forecast text gets the
clear-sky output for its day/night flag). -/
theorem determineWeatherEmoji_total_finite_range :
    (∀ (s : String) (isNight : Bool),
        determineWeatherEmoji s isNight ∈ weatherEmojiOutputs)
    ∧ determineWeatherEmoji "" false = clearDayEmoji
    ∧ determineWeatherEmoji "" true = clearNightLiteral := by
  refine ⟨?_, rfl, rfl⟩
  intro s night
  simp only [determineWeatherEmoji]
  split_ifs <;> simp [weatherEmojiOutputs]

/-! ## Claims about the paginated loader -/

/-- The number of items `allVideos.slice(start, start + count)`
produces. -/
lemma length_slice (av : List CameraRecord) (start count : Nat) :
    ((av.drop start).take count).length = min count (av.length - start) := by
  simp [List.length_take, List.length_drop]

/-- After `n` load actions at the running cursor the cursor sits at
`min (n * count) (length allVideos)`. -/
lemma loaderRun_videosLoaded (av : List CameraRecord) (c : Nat)
    (css : String) (n : Nat) :
    (loaderRun av c css n).videosLoaded = min (n * c) av.length := by
  induction n with
  | zero => simp [loaderRun, initialLoaderState]
  | succ n ih =>
      simp only [loaderRun, loadMoreClick, loadVideos, length_slice, ih,
        Nat.succ_mul]
      omega

/-- In every reachable loader state the number of rendered items equals
the cursor. -/
lemma loaderRun_rendered_length (av : List CameraRecord) (c : Nat)
    (css : String) (n : Nat) :
    (loaderRun av c css n).rendered.length = (loaderRun av c css n).videosLoaded := by
  induction n with
  | zero => simp [loaderRun, initialLoaderState]
  | succ n ih => simp [loaderRun, loadMoreClick, loadVideos, ih]

/-- The load-more control is set to `display: none` by a load step iff
the new cursor has reached the end of the list. -/
lemma loadVideos_display_iff (av : List CameraRecord) (st : LoaderState)
    (start count : Nat) :
    ((loadVideos av st start count).loadMoreDisplay = "none"
      ↔ av.length ≤ (loadVideos av st start count).videosLoaded) := by
  simp only [loadVideos]
  split
  · exact iff_of_true rfl (by assumption)
  · exact iff_of_false (by decide) (by assumption)

/-- C2: one `loadVideos(start, count)` call renders exactly
`min count (length - start)` further items, advances the cursor by that
same number, the `k`-th newly rendered item is the rendering of
`allItems[start + k]`, and a start index at or past the end renders
nothing (and, being a total function, cannot error). -/
theorem loadVideos_batch_contract (av : List CameraRecord)
    (st : LoaderState) (start count : Nat) :
    ((loadVideos av st start count).rendered.length
        = st.rendered.length + min count (av.length - start))
    ∧ ((loadVideos av st start count).videosLoaded
        = st.videosLoaded + min count (av.length - start))
    ∧ (∀ k, k < count →
        (loadVideos av st start count).rendered[st.rendered.length + k]?
          = (av[start + k]?).map renderVideoItem)
    ∧ (av.length ≤ start →
        (loadVideos av st start count).rendered = st.rendered) := by
  refine ⟨by simp [loadVideos, length_slice], by simp [loadVideos, length_slice],
    ?_, ?_⟩
  · intro k hk
    simp only [loadVideos]
    rw [List.getElem?_append_right (by simp), Nat.add_sub_cancel_left,
      List.getElem?_map, List.getElem?_take, if_pos hk, List.getElem?_drop]
  · intro h
    simp [loadVideos, List.drop_eq_nil_of_le h]

/-- A sample camera record for concrete witnesses. -/
def camSample : CameraRecord :=
  { name := "Main St", url := "https://example.com/cam.m3u8",
    latitude := "39.29", longitude := "-94.71" }

/-- Witness for C2: on the one-element list, the batch starting at `0`
places the rendering of that element at position `0`. -/
theorem loadVideos_batch_contract_witness :
    (loadVideos [camSample] (initialLoaderState "flex") 0 9).rendered[0]?
      = some (renderVideoItem camSample) := by
  have h := (loadVideos_batch_contract [camSample]
    (initialLoaderState "flex") 0 9).2.2.1 0 (by decide)
  simpa [initialLoaderState] using h

/-- C4: with a positive batch size, iterating the loader at the running
cursor renders the whole list after at most `length` steps and never
renders more than `length` items, and from the first load step onward
the load-more control is hidden exactly when the cursor equals the list
length. -/
theorem loader_completes_pagination (av : List CameraRecord) (c : Nat)
    (css : String) (hc : 0 < c) :
    (∀ n, av.length ≤ n →
        (loaderRun av c css n).rendered.length = av.length)
    ∧ (∀ n, (loaderRun av c css n).rendered.length ≤ av.length)
    ∧ (∀ n, 0 < n →
        ((loaderRun av c css n).loadMoreDisplay = "none"
          ↔ (loaderRun av c css n).videosLoaded = av.length)) := by
  refine ⟨?_, ?_, ?_⟩
  · intro n hn
    rw [loaderRun_rendered_length, loaderRun_videosLoaded]
    have hmul : n ≤ n * c := Nat.le_mul_of_pos_right n hc
    omega
  · intro n
    rw [loaderRun_rendered_length, loaderRun_videosLoaded]
    omega
  · intro n hn
    obtain ⟨m, rfl⟩ : ∃ m, n = m + 1 := ⟨n - 1, by omega⟩
    have hd : ((loaderRun av c css (m + 1)).loadMoreDisplay = "none"
        ↔ av.length ≤ (loaderRun av c css (m + 1)).videosLoaded) :=
      loadVideos_display_iff av (loaderRun av c css m) _ c
    rw [hd, loaderRun_videosLoaded]
    omega

/-- Witness for C4: a single batch of size `1` finishes the
one-element list. -/
theorem loader_completes_pagination_witness :
    (loaderRun [camSample] 1 "flex" 1).rendered.length = 1 :=
  (loader_completes_pagination [camSample] 1 "flex" (by decide)).1 1 (by decide)

/-- C5: in every state reachable by load-more actions the cursor stays
between `0` and the list length, and one further load action at the
running cursor never decreases it (indeed no load step decreases the
cursor from any state). -/
theorem loader_cursor_bounded_monotone (av : List CameraRecord) (c : Nat)
    (css : String) (n : Nat) :
    0 ≤ (loaderRun av c css n).videosLoaded
    ∧ (loaderRun av c css n).videosLoaded ≤ av.length
    ∧ (loaderRun av c css n).videosLoaded
        ≤ (loaderRun av c css (n + 1)).videosLoaded
    ∧ (∀ st : LoaderState, ∀ start count : Nat,
        st.videosLoaded ≤ (loadVideos av st start count).videosLoaded) := by
  refine ⟨Nat.zero_le _, ?_, ?_, ?_⟩
  · rw [loaderRun_videosLoaded]; omega
  · rw [loaderRun_videosLoaded, loaderRun_videosLoaded, Nat.succ_mul]
    omega
  · intro st start count
    simp [loadVideos]

/-! ## Claims about the feed parser -/

/-- Any response that is neither a bare list nor an object with a list
`videos` field makes the extraction throw. -/
lemma extract_error_of_not_listShaped (data : Json)
    (h : isListShaped data = false) :
    ∃ e, extractVideos data = Except.error e := by
  cases data with
  | null => exact ⟨_, rfl⟩
  | bool b => exact ⟨_, rfl⟩
  | num n => exact ⟨_, rfl⟩
  | str s => exact ⟨_, rfl⟩
  | arr xs => simp [isListShaped] at h
  | obj fields =>
    simp only [isListShaped] at h
    refine ⟨"Invalid video data format", ?_⟩
    rcases hl : lookupField fields "videos" with _ | v
    · simp [extractVideos, Json.getField, hl]
    · rw [hl] at h
      cases v with
      | arr xs => simp at h
      | null => simp [extractVideos, Json.getField, hl, Json.truthy]
      | bool b =>
          cases b <;> simp [extractVideos, Json.getField, hl, Json.truthy]
      | num m =>
          by_cases hm : m = 0 <;>
            simp [extractVideos, Json.getField, hl, Json.truthy, hm]
      | str t =>
          by_cases ht : t = "" <;>
            simp [extractVideos, Json.getField, hl, Json.truthy, ht]
      | obj gs => simp [extractVideos, Json.getField, hl, Json.truthy]

/-- A throwing extraction reaches the `.catch` handler: nothing stored,
nothing rendered, error text substituted. -/
lemma handleFeed_of_error (initText : String) (data : Json)
    (h : ∃ e, extractVideos data = Except.error e) :
    handleFeedData initText data
      = { allVideos := none, renderedCount := 0,
          loadingText := "Error loading videos." } := by
  obtain ⟨e, he⟩ := h
  simp [handleFeedData, he]

/-- C3: a bare list response and a wrapped `{videos: [...]}` response
parse to the same video list and produce identical feed outcomes, while
a response of any other shape (e.g. `{"error": "x"}`) makes the loader
throw, render nothing, and replace the loading-indicator text with the
visible error message. -/
theorem feed_shape_contract :
    (∀ (xs : List Json) (initText : String),
        extractVideos (Json.arr xs) = Except.ok xs
        ∧ (∀ fields, lookupField fields "videos" = some (Json.arr xs) →
            extractVideos (Json.obj fields) = Except.ok xs
            ∧ handleFeedData initText (Json.obj fields)
                = handleFeedData initText (Json.arr xs)))
    ∧ (∀ (data : Json) (initText : String), isListShaped data = false →
        (∃ e, extractVideos data = Except.error e)
        ∧ handleFeedData initText data
            = { allVideos := none, renderedCount := 0,
                loadingText := "Error loading videos." }) := by
  constructor
  · intro xs initText
    refine ⟨rfl, ?_⟩
    intro fields hf
    have harr : extractVideos (Json.arr xs) = Except.ok xs := rfl
    have hobj : extractVideos (Json.obj fields) = Except.ok xs := by
      simp [extractVideos, Json.getField, hf, Json.truthy]
    exact ⟨hobj, by simp [handleFeedData, hobj, harr]⟩
  · intro data initText h
    have he := extract_error_of_not_listShaped data h
    exact ⟨he, handleFeed_of_error initText data he⟩

/-- Witness for C3 at concrete inputs: the singleton feed both ways,
and the `{"error": "x"}` response. -/
theorem feed_shape_contract_witness :
    (extractVideos (Json.obj [("videos", Json.arr [Json.str "cam"])])
        = Except.ok [Json.str "cam"]
      ∧ handleFeedData "Loading..." (Json.obj [("videos", Json.arr [Json.str "cam"])])
        = handleFeedData "Loading..." (Json.arr [Json.str "cam"]))
    ∧ handleFeedData "Loading..." (Json.obj [("error", Json.str "x")])
        = { allVideos := none, renderedCount := 0,
            loadingText := "Error loading videos." } :=
  ⟨(feed_shape_contract.1 [Json.str "cam"] "Loading...").2
      [("videos", Json.arr [Json.str "cam"])] rfl,
   (feed_shape_contract.2 (Json.obj [("error", Json.str "x")]) "Loading..." rfl).2⟩

/-! ## Claims about the weather label resolver -/

/-- Property access on `undefined` always throws. -/
lemma getProp_none_undef (key : String) :
    getProp none key
      = Except.error "TypeError: cannot read properties of undefined" := rfl

/-- C6: the resolver is a total function into strings (so no error
escapes unhandled), and it produces the fallback text whenever either
network step fails, the points response lacks `properties`, or the
forecast response lacks `properties` or `periods[0]`.  Each endpoint's
response enters the model exactly once, reflecting that the chain
never retries a failed step. -/
theorem weather_fallback_on_failure (pointsResp forecastResp : Option Json)
    (h : pointsResp = none
        ∨ forecastResp = none
        ∨ (∃ p, pointsResp = some p ∧ propertyMissing p "properties" = true)
        ∨ (∃ f, forecastResp = some f
            ∧ (propertyMissing f "properties" = true
                ∨ firstPeriodMissing f = true))) :
    resolveWeather pointsResp forecastResp = fallbackTemperatureText := by
  rcases h with rfl | rfl | ⟨p, rfl, hp⟩ | ⟨f, rfl, hf⟩
  · rfl
  · cases pointsResp with
    | none => rfl
    | some p =>
      rcases h1 : getProp (some p) "properties" with e | props
      · simp [resolveWeather, weatherChain, h1]
      · rcases h2 : getProp props "forecastHourly" with e | u
        · simp [resolveWeather, weatherChain, h1, h2]
        · simp [resolveWeather, weatherChain, h1, h2]
  · rcases h1 : getProp (some p) "properties" with e | v
    · simp [resolveWeather, weatherChain, h1]
    · cases v with
      | none => simp [resolveWeather, weatherChain, h1, getProp_none_undef]
      | some w => exact absurd (by simpa only [propertyMissing, h1] using hp) (by decide)
  · cases pointsResp with
    | none => rfl
    | some p =>
      rcases h1 : getProp (some p) "properties" with e | props
      · simp [resolveWeather, weatherChain, h1]
      · rcases h2 : getProp props "forecastHourly" with e | u
        · simp [resolveWeather, weatherChain, h1, h2]
        · rcases hf with hf | hf
          · rcases h3 : getProp (some f) "properties" with e | v
            · simp [resolveWeather, weatherChain, h1, h2, h3]
            · cases v with
              | none =>
                  simp [resolveWeather, weatherChain, h1, h2, h3,
                    getProp_none_undef]
              | some w => exact absurd (by simpa only [propertyMissing, h3] using hf) (by decide)
          · rcases h3 : getProp (some f) "properties" with e | fprops
            · simp [resolveWeather, weatherChain, h1, h2, h3]
            · rcases h4 : getProp fprops "periods" with e | periods
              · simp [resolveWeather, weatherChain, h1, h2, h3, h4]
              · rcases h5 : jsIndexZero periods with e | cp
                · simp [resolveWeather, weatherChain, h1, h2, h3, h4, h5]
                · cases cp with
                  | none =>
                      simp [resolveWeather, weatherChain, h1, h2, h3, h4, h5,
                        getProp_none_undef]
                  | some w =>
                      exact absurd (by simpa only [firstPeriodMissing, h3, h4, h5] using hf) (by decide)

/-- Witness for C6: both endpoints failing on one page load yields the
fallback string. -/
theorem weather_fallback_on_failure_witness :
    resolveWeather none none = fallbackTemperatureText :=
  weather_fallback_on_failure none none (Or.inl rfl)

/-- C9: on a successful chain, the label is exactly
`"{emoji} {tempF}°f in kc"`, with `tempF` the (whole-number)
`temperature` of the first forecast period and the emoji classified
from that period's `shortForecast` and `!isDaytime`. -/
theorem weather_label_success_format (hourlyUrl : String) (tempF : Int)
    (isDaytime : Bool) (shortForecast : String) (laterPeriods : List Json) :
    resolveWeather
      (some (Json.obj [("properties",
        Json.obj [("forecastHourly", Json.str hourlyUrl)])]))
      (some (Json.obj [("properties", Json.obj [("periods",
        Json.arr (Json.obj [("temperature", Json.num tempF),
                            ("isDaytime", Json.bool isDaytime),
                            ("shortForecast", Json.str shortForecast)]
          :: laterPeriods))])]))
    = determineWeatherEmoji shortForecast (!isDaytime)
        ++ " " ++ toString tempF ++ "°f in kc" := rfl

end Roadtest
